import Mathlib

/-
Shallow embedding of `src/2/main.go`, a Go illustration of the Builder
design pattern.

Modelling conventions:
- Go heap pointers (`*Car`, `*Manual`) are modelled as allocation ids
  (`Nat`); a nil pointer is `Option.none`.  Allocation threads a fresh-id
  counter `w : Nat`; `newCar`/`newManual` return the fresh id and bump it.
- `Car` and `Manual` are structs with no fields, so each has exactly one
  value; since no instruction in the program ever writes through a product
  pointer, dereferencing any allocated pointer yields the empty record.
- Methods that mutate their receiver are state-passing functions returning
  the updated receiver (and the allocation counter when they allocate).
- The Go `Builder` interface is a record of operations `BuilderOps σ` over
  an abstract builder-state type `σ`; the `Director` methods are written
  against it exactly as the Go source is written against `Builder`.
  A recording test double `traceOps` logs every interface call with its
  arguments, to state what sequence a director method issues.
- Variadic `...any` arguments are lists of `GoVal` (the dynamic values the
  program actually passes: ints, strings, booleans).
-/

/-- A Go dynamic value passed through a variadic `...any` parameter. -/
inductive GoVal where
  | int (n : Int)
  | str (s : String)
  | bool (b : Bool)
deriving DecidableEq

/-- The product type `Car` (main.go lines 9-13): a struct with no fields. -/
structure Car where
deriving DecidableEq

/-- The product type `Manual` (main.go lines 19-22): a struct with no fields. -/
structure Manual where
deriving DecidableEq

/-- `newCar` (main.go lines 15-17): allocates a fresh empty `Car` and returns
a pointer to it.  Modelled as: given the next fresh allocation id `w`,
return the new pointer and the bumped counter. -/
def newCar (w : Nat) : Nat × Nat := (w, w + 1)

/-- `newManual` (main.go lines 24-26): allocates a fresh empty `Manual`. -/
def newManual (w : Nat) : Nat × Nat := (w, w + 1)

/-- Dereference a `Car` pointer.  `Car` has no fields and the program never
writes through a `*Car`, so every allocated `Car` is the empty record. -/
def derefCar (_p : Nat) : Car := Car.mk

/-- Dereference a `Manual` pointer; every allocated `Manual` is the empty
record (no fields, never written). -/
def derefManual (_p : Nat) : Manual := Manual.mk

/-- `CarBuilder` (main.go lines 42-44): owns one in-progress `*Car`
(nil is `none`; the zero value `&CarBuilder\x7b\x7d` has a nil `car`). -/
structure CarBuilder where
  car : Option Nat
deriving DecidableEq

/-- `CarBuilder.reset` (main.go lines 47-49): `c.car = newCar()`. -/
def CarBuilder.reset (c : CarBuilder) (w : Nat) : CarBuilder × Nat :=
  let pw := newCar w
  (⟨some pw.1⟩, pw.2)

/-- `CarBuilder.setSeats` (main.go lines 52-54): empty body (comment only). -/
def CarBuilder.setSeats (c : CarBuilder) (_v : List GoVal) : CarBuilder := c

/-- `CarBuilder.setEngine` (main.go lines 56-58): empty body. -/
def CarBuilder.setEngine (c : CarBuilder) (_v : List GoVal) : CarBuilder := c

/-- `CarBuilder.setTripComputer` (main.go lines 60-62): empty body. -/
def CarBuilder.setTripComputer (c : CarBuilder) (_v : List GoVal) : CarBuilder := c

/-- `CarBuilder.setGPS` (main.go lines 64-66): empty body. -/
def CarBuilder.setGPS (c : CarBuilder) (_v : List GoVal) : CarBuilder := c

/-- `CarBuilder.getProduct` (main.go lines 83-87): saves the owned pointer,
calls `reset`, and returns the saved pointer.  Result: (returned product,
updated builder, updated allocation counter). -/
def CarBuilder.getProduct (c : CarBuilder) (w : Nat) : Option Nat × CarBuilder × Nat :=
  let product := c.car
  let cw := c.reset w
  (product, cw.1, cw.2)

/-- `NewCarBuilder` (main.go lines 90-94): `&CarBuilder\x7b\x7d` (nil car)
followed by `reset`. -/
def NewCarBuilder (w : Nat) : CarBuilder × Nat :=
  let carBuilder : CarBuilder := ⟨none⟩
  carBuilder.reset w

/-- `CarManualBuilder` (main.go lines 98-100): owns one in-progress `*Manual`. -/
structure CarManualBuilder where
  manual : Option Nat
deriving DecidableEq

/-- `CarManualBuilder.reset` (main.go lines 102-104): `c.manual = newManual()`. -/
def CarManualBuilder.reset (c : CarManualBuilder) (w : Nat) : CarManualBuilder × Nat :=
  let pw := newManual w
  (⟨some pw.1⟩, pw.2)

/-- `CarManualBuilder.setSeats` (main.go lines 106-108): empty body. -/
def CarManualBuilder.setSeats (c : CarManualBuilder) (_v : List GoVal) : CarManualBuilder := c

/-- `CarManualBuilder.setEngine` (main.go lines 110-112): empty body. -/
def CarManualBuilder.setEngine (c : CarManualBuilder) (_v : List GoVal) : CarManualBuilder := c

/-- `CarManualBuilder.setTripComputer` (main.go lines 114-116): empty body. -/
def CarManualBuilder.setTripComputer (c : CarManualBuilder) (_v : List GoVal) : CarManualBuilder := c

/-- `CarManualBuilder.setGPS` (main.go lines 118-120): empty body. -/
def CarManualBuilder.setGPS (c : CarManualBuilder) (_v : List GoVal) : CarManualBuilder := c

/-- `CarManualBuilder.getProduct` (main.go lines 122-125): returns `c.manual`
with no reset; the builder state is untouched. -/
def CarManualBuilder.getProduct (c : CarManualBuilder) : Option Nat × CarManualBuilder :=
  (c.manual, c)

/-- `NewCarManualBuilder` (main.go lines 127-131): zero value then `reset`. -/
def NewCarManualBuilder (w : Nat) : CarManualBuilder × Nat :=
  let carManualBuilder : CarManualBuilder := ⟨none⟩
  carManualBuilder.reset w

/-- `Director` (main.go lines 138-144): a struct with no fields. -/
structure Director where
deriving DecidableEq

/-- `NewDirector` (main.go lines 158-160). -/
def NewDirector : Director := ⟨⟩

/-- The `Builder` interface (main.go lines 30-36), as a record of operations
over an abstract builder-state type `σ`. -/
structure BuilderOps (σ : Type) where
  reset : σ → σ
  setSeats : σ → List GoVal → σ
  setEngine : σ → List GoVal → σ
  setTripComputer : σ → List GoVal → σ
  setGPS : σ → List GoVal → σ

/-- `Director.constructSportsCar` (main.go lines 146-152): against the given
builder, in order: `reset`, `setSeats(2)`, `setEngine("SportEngine")`,
`setTripComputer(true)`, `setGPS(true)`. -/
def Director.constructSportsCar {σ : Type} (_d : Director) (B : BuilderOps σ) (s : σ) : σ :=
  let s1 := B.reset s
  let s2 := B.setSeats s1 [GoVal.int 2]
  let s3 := B.setEngine s2 [GoVal.str "SportEngine"]
  let s4 := B.setTripComputer s3 [GoVal.bool true]
  B.setGPS s4 [GoVal.bool true]

/-- `Director.constructSUV` (main.go lines 154-156): empty body, no calls. -/
def Director.constructSUV {σ : Type} (_d : Director) (_B : BuilderOps σ) (s : σ) : σ := s

/-- One call against the `Builder` interface, with its recorded arguments. -/
inductive BuilderCall where
  | reset
  | setSeats (args : List GoVal)
  | setEngine (args : List GoVal)
  | setTripComputer (args : List GoVal)
  | setGPS (args : List GoVal)
deriving DecidableEq

/-- A recording test double for the `Builder` interface: its state is the
list of calls received so far, and each operation appends itself. -/
def traceOps : BuilderOps (List BuilderCall) where
  reset := fun t => t ++ [BuilderCall.reset]
  setSeats := fun t v => t ++ [BuilderCall.setSeats v]
  setEngine := fun t v => t ++ [BuilderCall.setEngine v]
  setTripComputer := fun t v => t ++ [BuilderCall.setTripComputer v]
  setGPS := fun t v => t ++ [BuilderCall.setGPS v]

/-- `CarBuilder` as an implementation of the `Builder` interface; the state
is the builder together with the allocation counter. -/
def carBuilderOps : BuilderOps (CarBuilder × Nat) where
  reset := fun s => s.1.reset s.2
  setSeats := fun s v => (s.1.setSeats v, s.2)
  setEngine := fun s v => (s.1.setEngine v, s.2)
  setTripComputer := fun s v => (s.1.setTripComputer v, s.2)
  setGPS := fun s v => (s.1.setGPS v, s.2)

/-- `CarManualBuilder` as an implementation of the `Builder` interface. -/
def carManualBuilderOps : BuilderOps (CarManualBuilder × Nat) where
  reset := fun s => s.1.reset s.2
  setSeats := fun s v => (s.1.setSeats v, s.2)
  setEngine := fun s v => (s.1.setEngine v, s.2)
  setTripComputer := fun s v => (s.1.setTripComputer v, s.2)
  setGPS := fun s v => (s.1.setGPS v, s.2)

/-- The observable (deep, pointer-identity-free) state of a `CarBuilder`:
the value of the owned `Car`, or `none` for a nil pointer. -/
def CarBuilder.observe (c : CarBuilder) : Option Car := c.car.map derefCar

/-- The observable state of a `CarManualBuilder`. -/
def CarManualBuilder.observe (c : CarManualBuilder) : Option Manual :=
  c.manual.map derefManual

/-- One setter call (any of the four non-reset interface operations). -/
inductive SetterCall where
  | seats (args : List GoVal)
  | engine (args : List GoVal)
  | trip (args : List GoVal)
  | gps (args : List GoVal)
deriving DecidableEq

/-- Apply one setter call to a `CarBuilder`. -/
def CarBuilder.applySetter (c : CarBuilder) : SetterCall → CarBuilder
  | SetterCall.seats v => c.setSeats v
  | SetterCall.engine v => c.setEngine v
  | SetterCall.trip v => c.setTripComputer v
  | SetterCall.gps v => c.setGPS v

/-- Apply a sequence of setter calls to a `CarBuilder`. -/
def CarBuilder.applySetters (c : CarBuilder) : List SetterCall → CarBuilder
  | [] => c
  | k :: ks => (c.applySetter k).applySetters ks

/-- Apply one setter call to a `CarManualBuilder`. -/
def CarManualBuilder.applySetter (c : CarManualBuilder) : SetterCall → CarManualBuilder
  | SetterCall.seats v => c.setSeats v
  | SetterCall.engine v => c.setEngine v
  | SetterCall.trip v => c.setTripComputer v
  | SetterCall.gps v => c.setGPS v

/-- Apply a sequence of setter calls to a `CarManualBuilder`. -/
def CarManualBuilder.applySetters (c : CarManualBuilder) : List SetterCall → CarManualBuilder
  | [] => c
  | k :: ks => (c.applySetter k).applySetters ks

/-- C1: `Director.constructSportsCar`, run against a builder that records
every interface call it receives, appends exactly the sequence `reset`,
`setSeats(2)`, `setEngine("SportEngine")`, `setTripComputer(true)`,
`setGPS(true)`, in that strict order with those literal arguments, and no
other calls, whatever calls were recorded before. -/
theorem c1_constructSportsCar_exact_call_sequence
    (d : Director) (pre : List BuilderCall) :
    d.constructSportsCar traceOps pre =
      pre ++ [BuilderCall.reset,
              BuilderCall.setSeats [GoVal.int 2],
              BuilderCall.setEngine [GoVal.str "SportEngine"],
              BuilderCall.setTripComputer [GoVal.bool true],
              BuilderCall.setGPS [GoVal.bool true]] := by
  simp [Director.constructSportsCar, traceOps]

/-- C2: `CarBuilder.getProduct` returns the currently owned product and
leaves the builder owning a fresh, just-allocated (hence distinct) empty
product, so a second `getProduct` with no intervening setters returns a
distinct, empty product.  The hypothesis `p < w` says the owned pointer was
allocated before the current fresh-id counter, which holds for every
reachable state. -/
theorem c2_carBuilder_getProduct_detach_then_reset
    (c : CarBuilder) (w p : Nat) (hp : c.car = some p) (hw : p < w) :
    (c.getProduct w).1 = some p ∧
    ((c.getProduct w).2.1).car = some w ∧
    (((c.getProduct w).2.1).getProduct (c.getProduct w).2.2).1 = some w ∧
    (((c.getProduct w).2.1).getProduct (c.getProduct w).2.2).1 ≠ (c.getProduct w).1 ∧
    Option.map derefCar (((c.getProduct w).2.1).getProduct (c.getProduct w).2.2).1
      = some Car.mk := by
  obtain ⟨oc⟩ := c
  cases hp
  refine ⟨rfl, rfl, rfl, ?_, rfl⟩
  simp [CarBuilder.getProduct, CarBuilder.reset, newCar]
  omega

/-- Witness for C2 at the concrete state `car = some 0`, counter `1`. -/
theorem c2_witness :
    (CarBuilder.mk (some 0)).car = some 0 ∧ 0 < 1 ∧
    ((CarBuilder.mk (some 0)).getProduct 1).1 = some 0 ∧
    (((CarBuilder.mk (some 0)).getProduct 1).2.1).car = some 1 ∧
    ((((CarBuilder.mk (some 0)).getProduct 1).2.1).getProduct
        ((CarBuilder.mk (some 0)).getProduct 1).2.2).1 = some 1 ∧
    ((((CarBuilder.mk (some 0)).getProduct 1).2.1).getProduct
        ((CarBuilder.mk (some 0)).getProduct 1).2.2).1
      ≠ ((CarBuilder.mk (some 0)).getProduct 1).1 ∧
    Option.map derefCar ((((CarBuilder.mk (some 0)).getProduct 1).2.1).getProduct
        ((CarBuilder.mk (some 0)).getProduct 1).2.2).1 = some Car.mk := by
  refine ⟨rfl, by decide, ?_⟩
  exact c2_carBuilder_getProduct_detach_then_reset (CarBuilder.mk (some 0)) 1 0 rfl
    (by decide)

/-- C3: `CarManualBuilder.getProduct` returns the currently owned manual
without resetting: the builder afterwards is the very same state, and two
consecutive `getProduct` calls with no intervening `reset` return the
identical product. -/
theorem c3_carManualBuilder_getProduct_no_reset (c : CarManualBuilder) :
    c.getProduct = (c.manual, c) ∧
    (c.getProduct.2) = c ∧
    ((c.getProduct.2).getProduct).1 = c.getProduct.1 := by
  exact ⟨rfl, rfl, rfl⟩

/-- C4: `NewCarBuilder` and `NewCarManualBuilder` each perform an initial
`reset`: immediately after construction the owned product pointer is
non-nil (it is the freshly allocated id `w`) and the product it points to
is the empty record, free of prior configuration. -/
theorem c4_constructors_perform_initial_reset (w : Nat) :
    ((NewCarBuilder w).1).car = some w ∧
    ((NewCarBuilder w).1).car.isSome = true ∧
    Option.map derefCar ((NewCarBuilder w).1).car = some Car.mk ∧
    ((NewCarManualBuilder w).1).manual = some w ∧
    ((NewCarManualBuilder w).1).manual.isSome = true ∧
    Option.map derefManual ((NewCarManualBuilder w).1).manual = some Manual.mk := by
  exact ⟨rfl, rfl, rfl, rfl, rfl, rfl⟩

/-- C5: `Director.constructSUV` issues zero calls against any builder: on
every `Builder` implementation it returns the builder state unchanged, and
against the recording test double it appends no call whatsoever. -/
theorem c5_constructSUV_issues_no_calls
    {σ : Type} (d : Director) (B : BuilderOps σ) (s : σ) (t : List BuilderCall) :
    d.constructSUV B s = s ∧ d.constructSUV traceOps t = t := by
  exact ⟨rfl, rfl⟩

/-- C6: every setter on both concrete builders returns no value (in the
embedding: only the updated receiver) and leaves the entire builder state,
including the identity of the owned product pointer, unchanged — its only
possible effect is in place on the owned instance, and in this stub code
even that mutation is empty. -/
theorem c6_setters_frame_condition
    (c : CarBuilder) (m : CarManualBuilder) (v : List GoVal) :
    c.setSeats v = c ∧ c.setEngine v = c ∧
    c.setTripComputer v = c ∧ c.setGPS v = c ∧
    m.setSeats v = m ∧ m.setEngine v = m ∧
    m.setTripComputer v = m ∧ m.setGPS v = m := by
  exact ⟨rfl, rfl, rfl, rfl, rfl, rfl, rfl, rfl⟩

/-- C7: the `Director` is stateless: it has no fields, so any two directors
are equal (no call history can distinguish them), and `constructSportsCar`
applied by any two directors to equal builder states yields equal builder
states — the outcome is a function of the input builder state alone. -/
theorem c7_director_stateless
    {σ : Type} (d₁ d₂ : Director) (B : BuilderOps σ) (s₁ s₂ : σ) (hs : s₁ = s₂) :
    d₁ = d₂ ∧ d₁.constructSportsCar B s₁ = d₂.constructSportsCar B s₂ := by
  cases d₁
  cases d₂
  cases hs
  exact ⟨rfl, rfl⟩

/-- Witness for C7: two directors driving the recording double from the
empty trace. -/
theorem c7_witness :
    NewDirector = NewDirector ∧
    NewDirector.constructSportsCar traceOps ([] : List BuilderCall)
      = NewDirector.constructSportsCar traceOps ([] : List BuilderCall) := by
  exact c7_director_stateless NewDirector NewDirector traceOps [] [] rfl

/-- Helper: every setter call leaves a `CarBuilder` unchanged. -/
lemma CarBuilder.applySetter_id_car (c : CarBuilder) (k : SetterCall) :
    c.applySetter k = c := by
  cases k <;> rfl

/-- Helper: any sequence of setter calls leaves a `CarBuilder` unchanged. -/
lemma CarBuilder.applySetters_id_car (c : CarBuilder) (calls : List SetterCall) :
    c.applySetters calls = c := by
  induction calls with
  | nil => rfl
  | cons k ks ih =>
      rw [CarBuilder.applySetters, CarBuilder.applySetter_id_car]
      exact ih

/-- Helper: every setter call leaves a `CarManualBuilder` unchanged. -/
lemma CarManualBuilder.applySetter_id_manual (c : CarManualBuilder) (k : SetterCall) :
    c.applySetter k = c := by
  cases k <;> rfl

/-- Helper: any sequence of setter calls leaves a `CarManualBuilder` unchanged. -/
lemma CarManualBuilder.applySetters_id_manual (c : CarManualBuilder) (calls : List SetterCall) :
    c.applySetters calls = c := by
  induction calls with
  | nil => rfl
  | cons k ks ih =>
      rw [CarManualBuilder.applySetters, CarManualBuilder.applySetter_id_manual]
      exact ih

/-- C8: the owned-product pointer of each concrete builder is non-nil right
after construction and stays non-nil after every `Builder`-interface
operation and after every `getProduct` call (given it was non-nil before,
which construction establishes). -/
theorem c8_owned_product_nonnil_invariant
    (c : CarBuilder) (m : CarManualBuilder) (w : Nat) (v : List GoVal)
    (hc : c.car.isSome = true) (hm : m.manual.isSome = true) :
    ((NewCarBuilder w).1).car.isSome = true ∧
    ((c.reset w).1).car.isSome = true ∧
    (c.setSeats v).car.isSome = true ∧
    (c.setEngine v).car.isSome = true ∧
    (c.setTripComputer v).car.isSome = true ∧
    (c.setGPS v).car.isSome = true ∧
    ((c.getProduct w).2.1).car.isSome = true ∧
    ((NewCarManualBuilder w).1).manual.isSome = true ∧
    ((m.reset w).1).manual.isSome = true ∧
    (m.setSeats v).manual.isSome = true ∧
    (m.setEngine v).manual.isSome = true ∧
    (m.setTripComputer v).manual.isSome = true ∧
    (m.setGPS v).manual.isSome = true ∧
    (m.getProduct.2).manual.isSome = true := by
  exact ⟨rfl, rfl, hc, hc, hc, hc, rfl, rfl, rfl, hm, hm, hm, hm, hm⟩

/-- Witness for C8 at `car = some 0`, `manual = some 0`, `w = 5`, one
argument list `[int 2]`. -/
theorem c8_witness :
    (CarBuilder.mk (some 0)).car.isSome = true ∧
    (CarManualBuilder.mk (some 0)).manual.isSome = true ∧
    ((NewCarBuilder 5).1).car.isSome = true ∧
    (((CarBuilder.mk (some 0)).reset 5).1).car.isSome = true ∧
    ((CarBuilder.mk (some 0)).setSeats [GoVal.int 2]).car.isSome = true ∧
    ((CarBuilder.mk (some 0)).setEngine [GoVal.int 2]).car.isSome = true ∧
    ((CarBuilder.mk (some 0)).setTripComputer [GoVal.int 2]).car.isSome = true ∧
    ((CarBuilder.mk (some 0)).setGPS [GoVal.int 2]).car.isSome = true ∧
    (((CarBuilder.mk (some 0)).getProduct 5).2.1).car.isSome = true ∧
    ((NewCarManualBuilder 5).1).manual.isSome = true ∧
    (((CarManualBuilder.mk (some 0)).reset 5).1).manual.isSome = true ∧
    ((CarManualBuilder.mk (some 0)).setSeats [GoVal.int 2]).manual.isSome = true ∧
    ((CarManualBuilder.mk (some 0)).setEngine [GoVal.int 2]).manual.isSome = true ∧
    ((CarManualBuilder.mk (some 0)).setTripComputer [GoVal.int 2]).manual.isSome = true ∧
    ((CarManualBuilder.mk (some 0)).setGPS [GoVal.int 2]).manual.isSome = true ∧
    (((CarManualBuilder.mk (some 0)).getProduct).2).manual.isSome = true := by
  refine ⟨rfl, rfl, ?_⟩
  exact c8_owned_product_nonnil_invariant (CarBuilder.mk (some 0))
    (CarManualBuilder.mk (some 0)) 5 [GoVal.int 2] rfl rfl

/-- C9: because the product types carry no fields and every setter body is a
no-op, any sequence of setter calls leaves each builder unchanged, and the
product returned by `getProduct` afterwards — including after the full
`constructSportsCar` profile driven by the director — has exactly the value
of a freshly allocated empty product (`newCar` / `newManual`). -/
theorem c9_product_observationally_fresh
    (c : CarBuilder) (m : CarManualBuilder) (calls : List SetterCall)
    (w u p q : Nat) (hc : c.car = some p) (hm : m.manual = some q) :
    c.applySetters calls = c ∧
    m.applySetters calls = m ∧
    Option.map derefCar ((c.applySetters calls).getProduct w).1
      = some (derefCar (newCar u).1) ∧
    Option.map derefManual ((m.applySetters calls).getProduct).1
      = some (derefManual (newManual u).1) ∧
    Option.map derefCar
        (((NewDirector.constructSportsCar carBuilderOps (c, w)).1).getProduct
          (NewDirector.constructSportsCar carBuilderOps (c, w)).2).1
      = some (derefCar (newCar u).1) ∧
    Option.map derefManual
        (((NewDirector.constructSportsCar carManualBuilderOps (m, w)).1).getProduct).1
      = some (derefManual (newManual u).1) := by
  refine ⟨CarBuilder.applySetters_id_car c calls, CarManualBuilder.applySetters_id_manual m calls,
    ?_, ?_, ?_, ?_⟩
  · rw [CarBuilder.applySetters_id_car]
    simp [CarBuilder.getProduct, hc, derefCar, newCar]
  · rw [CarManualBuilder.applySetters_id_manual]
    simp [CarManualBuilder.getProduct, hm, derefManual, newManual]
  · rfl
  · rfl

/-- Witness for C9 at `car = some 0`, `manual = some 1`, the sports-car
setter sequence, `w = 2`, `u = 7`. -/
theorem c9_witness :
    (CarBuilder.mk (some 0)).car = some 0 ∧
    (CarManualBuilder.mk (some 1)).manual = some 1 ∧
    ((CarBuilder.mk (some 0)).applySetters
        [SetterCall.seats [GoVal.int 2], SetterCall.engine [GoVal.str "SportEngine"],
         SetterCall.trip [GoVal.bool true], SetterCall.gps [GoVal.bool true]]
      = CarBuilder.mk (some 0) ∧
    (CarManualBuilder.mk (some 1)).applySetters
        [SetterCall.seats [GoVal.int 2], SetterCall.engine [GoVal.str "SportEngine"],
         SetterCall.trip [GoVal.bool true], SetterCall.gps [GoVal.bool true]]
      = CarManualBuilder.mk (some 1) ∧
    Option.map derefCar (((CarBuilder.mk (some 0)).applySetters
        [SetterCall.seats [GoVal.int 2], SetterCall.engine [GoVal.str "SportEngine"],
         SetterCall.trip [GoVal.bool true], SetterCall.gps [GoVal.bool true]]).getProduct 2).1
      = some (derefCar (newCar 7).1) ∧
    Option.map derefManual (((CarManualBuilder.mk (some 1)).applySetters
        [SetterCall.seats [GoVal.int 2], SetterCall.engine [GoVal.str "SportEngine"],
         SetterCall.trip [GoVal.bool true], SetterCall.gps [GoVal.bool true]]).getProduct).1
      = some (derefManual (newManual 7).1) ∧
    Option.map derefCar
        (((NewDirector.constructSportsCar carBuilderOps (CarBuilder.mk (some 0), 2)).1).getProduct
          (NewDirector.constructSportsCar carBuilderOps (CarBuilder.mk (some 0), 2)).2).1
      = some (derefCar (newCar 7).1) ∧
    Option.map derefManual
        (((NewDirector.constructSportsCar carManualBuilderOps
            (CarManualBuilder.mk (some 1), 2)).1).getProduct).1
      = some (derefManual (newManual 7).1)) := by
  refine ⟨rfl, rfl, ?_⟩
  exact c9_product_observationally_fresh (CarBuilder.mk (some 0))
    (CarManualBuilder.mk (some 1))
    [SetterCall.seats [GoVal.int 2], SetterCall.engine [GoVal.str "SportEngine"],
     SetterCall.trip [GoVal.bool true], SetterCall.gps [GoVal.bool true]]
    2 7 0 1 rfl rfl

/-- C10: `constructSportsCar` is idempotent on the builder's observable
(deep, pointer-identity-free) state: for either concrete builder, running
it twice leaves the builder observably identical to running it once, namely
holding a freshly reset empty product. -/
theorem c10_constructSportsCar_idempotent_on_state
    (d : Director) (c : CarBuilder) (m : CarManualBuilder) (w u : Nat) :
    ((d.constructSportsCar carBuilderOps
        (d.constructSportsCar carBuilderOps (c, w))).1).observe
      = ((d.constructSportsCar carBuilderOps (c, w)).1).observe ∧
    ((d.constructSportsCar carBuilderOps (c, w)).1).observe
      = some (derefCar (newCar u).1) ∧
    ((d.constructSportsCar carManualBuilderOps
        (d.constructSportsCar carManualBuilderOps (m, w))).1).observe
      = ((d.constructSportsCar carManualBuilderOps (m, w)).1).observe ∧
    ((d.constructSportsCar carManualBuilderOps (m, w)).1).observe
      = some (derefManual (newManual u).1) := by
  exact ⟨rfl, rfl, rfl, rfl⟩
